import Mathlib

/-!
Verification of `bigquery-advanced-utils` (audit-log normalization and CSV
data-check framework) against its natural-language specification.

The Python source is shallowly embedded:
* JSON-like audit-log payloads become the inductive type `Json`; Python's
  `dict.get(key, {})` chains become the total accessor `jget` which yields
  `Json.null` for an absent key (Python code would raise `AttributeError`
  when an *intermediate* value is present but not a dict; such payloads are
  outside the well-formedness predicates stated with the theorems).
* Timestamps are modelled as integers (seconds); `timedelta(days=n)` is
  `n * 86400`.
* Stateful methods of `LoggingClient` become functions on an explicit
  `LogState`; the logging backend (a collaborator) is a parameter supplying
  the raw entries of a pull.
* The CSV validator checks mutate `column_sums` in place and may raise;
  they are embedded as functions returning the new accumulator state paired
  with an optional raised error (`ColState × Option PyErr`), since Python
  mutations performed before a raise persist.
* Python `float` parsing in `check_numeric_range` is modelled over the
  integer-formatted strings (`parsePyInt`); no claim depends on
  floating-point semantics.
-/

/-- JSON-like payload values of a raw audit-log entry. -/
inductive Json where
  | null
  | bool (b : Bool)
  | str (s : String)
  | arr (elems : List Json)
  | obj (fields : List (String × Json))
deriving Repr

/-- First binding of `key` in an association list (Python dict lookup;
keys of payload dicts are unique). -/
def lookupField : List (String × Json) → String → Option Json
  | [], _ => none
  | (k, v) :: rest, key => if k = key then some v else lookupField rest key

/-- `d.get(key, {})`-style chained access: absent key, non-object value and
`{}` all collapse to `Json.null`, on which further access yields `Json.null`
again — matching Python's behaviour on well-formed (dict-or-absent) chains. -/
def jget : Json → String → Json
  | Json.obj fields, key => (lookupField fields key).getD Json.null
  | _, _ => Json.null

/-- `v == "s"` where `v` came out of a `.get` chain: true only for an equal
string (Python `None == s` and `{} == s` are `False`). -/
def jsonEqStr (j : Json) (s : String) : Bool :=
  match j with
  | Json.str t => t = s
  | _ => false

/-- String value with a default, as in `d.get(k, "")` feeding a string
method. -/
def asStrD (j : Json) (default : String) : String :=
  match j with
  | Json.str t => t
  | _ => default

/-- Python `f"{x}"` rendering of a payload scalar (`None` prints `None`). -/
def pyStr (j : Json) : String :=
  match j with
  | Json.str t => t
  | Json.bool true => "True"
  | Json.bool false => "False"
  | _ => "None"

/-- List elements of a payload value; iterating the `{}` default (or any
non-list) yields nothing. -/
def arrElemsD (j : Json) : List Json :=
  match j with
  | Json.arr elems => elems
  | _ => []

/-- `key in d` for a payload object. -/
def hasKey (j : Json) (key : String) : Bool :=
  match j with
  | Json.obj fields => fields.any (fun kv => kv.1 = key)
  | _ => false

/-- Value is an object or absent: a `.get(k, {})` chain through it behaves
like the Python original (no `AttributeError`). -/
def objOrNull : Json → Bool
  | Json.null => true
  | Json.obj _ => true
  | _ => false

/-- Value is a string or absent. -/
def strOrNull : Json → Bool
  | Json.null => true
  | Json.str _ => true
  | _ => false

/-- `isinstance(v, list)`. -/
def Json.isList : Json → Bool
  | Json.arr _ => true
  | _ => false

/-- `SOURCE_ORIGIN_TYPE` from `bigquery_advanced_utils/utils/constants.py`. -/
def sourceOriginType (key : String) : String :=
  if key = "looker_studio" then "Looker Studio"
  else if key = "datatransfer" then "Datatransfer"
  else if key = "power_bi" then "Power BI"
  else if key = "query_api" then "Query / API"
  else if key = "other" then "Other"
  else ""

/-- Rule 1 of `request_source_origin` (logging.py:154-157): the
caller-supplied user agent equals the data-transfer-service signature. -/
def condDatatransfer (p : Json) : Bool :=
  jsonEqStr (jget (jget p "requestMetadata") "callerSuppliedUserAgent")
    "BigQuery Data Transfer Service"

/-- Rule 2 (logging.py:160-166): the nested job-configuration requestor
label equals `looker_studio`. -/
def condLookerStudio (p : Json) : Bool :=
  jsonEqStr
    (jget (jget (jget (jget (jget (jget p "serviceData") "jobQueryResponse")
      "job") "jobConfiguration") "labels") "requestor")
    "looker_studio"

/-- Rule 3 (logging.py:169-171): the user agent (default `""`) starts with
the ODBC-driver signature. -/
def condPowerBi (p : Json) : Bool :=
  (asStrD (jget (jget p "requestMetadata") "callerSuppliedUserAgent")
      "").startsWith "MicrosoftODBCDriverforGoogleBigQuery"

/-- Rule 4 (logging.py:174-180): the nested query-priority field equals
`QUERY_INTERACTIVE`. -/
def condQueryApi (p : Json) : Bool :=
  jsonEqStr
    (jget (jget (jget (jget (jget (jget p "serviceData") "jobInsertRequest")
      "resource") "jobConfiguration") "query") "queryPriority")
    "QUERY_INTERACTIVE"

/-- `log_entry["request_source_origin"]` (logging.py:152-185): the nested
conditional expression classifying the access path of an entry. -/
def requestSourceOrigin (p : Json) : String :=
  if condDatatransfer p then "Datatransfer"
  else if condLookerStudio p then sourceOriginType "looker_studio"
  else if condPowerBi p then sourceOriginType "power_bi"
  else if condQueryApi p then sourceOriginType "query_api"
  else sourceOriginType "other"

/-- Payloads on which the embedded classifier agrees with the Python
expression everywhere (every intermediate dict of an accessed chain is a
dict or absent, and the user agent, when present, is a string). -/
def classifyWF (p : Json) : Bool :=
  objOrNull (jget p "requestMetadata") &&
  strOrNull (jget (jget p "requestMetadata") "callerSuppliedUserAgent") &&
  objOrNull (jget p "serviceData") &&
  objOrNull (jget (jget p "serviceData") "jobQueryResponse") &&
  objOrNull (jget (jget (jget p "serviceData") "jobQueryResponse") "job") &&
  objOrNull (jget (jget (jget (jget p "serviceData") "jobQueryResponse")
    "job") "jobConfiguration") &&
  objOrNull (jget (jget (jget (jget (jget p "serviceData")
    "jobQueryResponse") "job") "jobConfiguration") "labels") &&
  objOrNull (jget (jget p "serviceData") "jobInsertRequest") &&
  objOrNull (jget (jget (jget p "serviceData") "jobInsertRequest")
    "resource") &&
  objOrNull (jget (jget (jget (jget p "serviceData") "jobInsertRequest")
    "resource") "jobConfiguration") &&
  objOrNull (jget (jget (jget (jget (jget p "serviceData")
    "jobInsertRequest") "resource") "jobConfiguration") "query")


/-- A positional argument of `_calculate_interval`: Python inspects `args`
for the first value that `isinstance(item, int)`. -/
inductive PyArg where
  | intArg (n : Int)
  | otherArg
deriving DecidableEq, Repr

/-- `next((item for item in args if isinstance(item, int)), ...)`. -/
def firstIntArg : List PyArg → Option Int
  | [] => none
  | PyArg.intArg n :: _ => some n
  | PyArg.otherArg :: rest => firstIntArg rest

/-- Keyword arguments of `_calculate_interval`; datetimes already resolved
to integer timestamps (`datetime_utils.resolve_datetime` parsing is a
collaborator concern, modelled as done). -/
structure IntervalKwargs where
  days : Option Int
  start_time : Option Int
  end_time : Option Int
deriving DecidableEq, Repr

/-- `LoggingClient._calculate_interval` (logging.py:32-79). `now1`/`now2`
are the two `datetime.now()` readings of the days branch; a day is 86400
seconds. -/
def calculate_interval (now1 now2 : Int) (args : List PyArg)
    (kw : IntervalKwargs) : Except String (Int × Int) :=
  match (firstIntArg args).orElse (fun _ => kw.days) with
  | some d => Except.ok (now1 - d * 86400, now2)
  | none =>
    match kw.start_time with
    | some s =>
      let e := kw.end_time.getD now2
      if s > e then Except.error "Start time must be before end time."
      else Except.ok (s, e)
    | none => Except.error "Invalid arguments, datetime range missing."

/-- `projects\/([^\/]+)\/datasets\/([^\/]+)\/tables\/([^\/]+)` split helper:
splits a character list on `/` (Python regex groups cannot cross a slash,
so a match of the pattern at the start of the string is exactly a
segment-wise match). -/
def splitSlash (cs : List Char) : List (List Char) :=
  match cs with
  | [] => [[]]
  | c :: rest =>
    let r := splitSlash rest
    if c = '/' then [] :: r
    else match r with
      | [] => [[c]]
      | seg :: segs => (c :: seg) :: segs

/-- `re.match(MATCHING_RULE_TABLE_REF_ID, s)` / `re.findall(...)[0]`:
the project/dataset/table triple when the pattern matches a prefix of
`s`. -/
def tableRefTriple (s : String) : Option (String × String × String) :=
  match splitSlash s.data with
  | seg0 :: seg1 :: seg2 :: seg3 :: seg4 :: seg5 :: _ =>
    if seg0 = "projects".data ∧ seg1 ≠ [] ∧ seg2 = "datasets".data ∧
        seg3 ≠ [] ∧ seg4 = "tables".data ∧ seg5 ≠ [] then
      some (String.mk seg1, String.mk seg3, String.mk seg5)
    else none
  | _ => none

/-- Add to a Python-set model (list without duplicates, in first-insertion
order; CPython's set iteration order is unspecified, and no claim depends
on the order of `referenced_tables`). -/
def insertUnique (l : List String) (x : String) : List String :=
  if x ∈ l then l else l ++ [x]

/-- Tables extracted from granted `authorizationInfo` resources
(logging.py:192-209). A non-string `resource` value would raise a
`TypeError` inside `re.match` in Python; such payloads are skipped here. -/
def authInfoTables (p : Json) : List String :=
  let resources := (arrElemsD (jget p "authorizationInfo")).filterMap
    (fun item =>
      match item with
      | Json.obj fs =>
        match lookupField fs "resource", lookupField fs "granted" with
        | some (Json.str r), some (Json.bool true) =>
          if (tableRefTriple r).isSome then some r else none
        | _, _ => none
      | _ => none)
  resources.foldl (fun acc s =>
    match tableRefTriple s with
    | some (pr, d, t) => insertUnique acc (pr ++ "." ++ d ++ "." ++ t)
    | none => acc) []

/-- Tables or views from the job-statistics sub-fields (logging.py:211-228);
`key` is `referencedTables` or `referencedViews`; absent ids render as
Python's `f"{None}"`. -/
def jobStatsRefs (p : Json) (key : String) : List String :=
  (arrElemsD (jget (jget (jget (jget (jget p "serviceData")
      "jobQueryResponse") "job") "jobStatistics") key)).map
    (fun x =>
      pyStr (jget x "projectId") ++ "." ++ pyStr (jget x "datasetId") ++
        "." ++ pyStr (jget x "tableId"))

/-- `log_entry["referenced_tables"]` (logging.py:188-230): regex extraction
unless the origin is Looker Studio or Power BI, in which case the
job-statistics tables and views are unioned. -/
def extractTables (p : Json) (origin : String) : List String :=
  if origin ≠ sourceOriginType "looker_studio" ∧
      origin ≠ sourceOriginType "power_bi" then
    authInfoTables p
  else
    (jobStatsRefs p "referencedTables" ++
      jobStatsRefs p "referencedViews").foldl insertUnique []

/-- A raw audit-log entry as consumed by `get_all_data_access_logs`. -/
structure LogEntry where
  insert_id : String
  timestamp : String
  payload : Json

/-- The value or `None` of a `.get` with no default, as stored into a
detail sub-record (non-string scalars are not produced by these fields). -/
def optStr (j : Json) : Option String :=
  match j with
  | Json.str s => some s
  | _ => none

/-- Python `a or b` on optional strings (`None` and `""` are falsy). -/
def pyOrStr (a b : Option String) : Option String :=
  match a with
  | some s => if s = "" then b else some s
  | none => b

/-- A normalized access record (`log_entry` dict of logging.py:135-268);
the two detail sub-dicts are inlined as prefixed fields. -/
structure AccessRecord where
  id : String
  timestamp : String
  user_email : String
  request_source_origin : String
  referenced_tables : List String
  dt_project_id : Option String
  dt_config_id : Option String
  ls_dashboard_id : Option String
  ls_datasource_id : Option String
deriving DecidableEq, Repr

/-- One iteration of the entry loop of `get_all_data_access_logs`
(logging.py:133-271): `none` models the `continue` that drops an entry
whose `referenced_tables` list is empty. -/
def normalizeEntry (e : LogEntry) : Option AccessRecord :=
  if extractTables e.payload (requestSourceOrigin e.payload) = [] then none
  else some {
    id := e.insert_id
    timestamp := e.timestamp
    user_email := asStrD
      (jget (jget e.payload "authenticationInfo") "principalEmail") "Unknown"
    request_source_origin := requestSourceOrigin e.payload
    referenced_tables := extractTables e.payload
      (requestSourceOrigin e.payload)
    dt_project_id := optStr (jget (jget (jget (jget (jget e.payload
      "serviceData") "jobInsertResponse") "resource") "jobName")
      "projectId")
    dt_config_id := pyOrStr
      (optStr (jget (jget (jget (jget (jget (jget e.payload "serviceData")
        "jobInsertRequest") "resource") "jobConfiguration") "labels")
        "dts_run_id"))
      (optStr (jget (jget (jget (jget (jget e.payload "serviceData")
        "jobInsertResponse") "resource") "jobName") "jobId"))
    ls_dashboard_id := optStr (jget (jget (jget (jget (jget (jget e.payload
      "serviceData") "jobQueryResponse") "job") "jobConfiguration")
      "labels") "looker_studio_report_id")
    ls_datasource_id := optStr (jget (jget (jget (jget (jget (jget e.payload
      "serviceData") "jobQueryResponse") "job") "jobConfiguration")
      "labels") "looker_studio_datasource_id") }

/-- The records appended by one pass of the entry loop. -/
def normalizeEntries (entries : List LogEntry) : List AccessRecord :=
  entries.filterMap normalizeEntry

/-- The mutable state of the `LoggingClient` singleton (logging.py:29-30). -/
structure LogState where
  data_access_logs : List AccessRecord
  cached : Bool
  cache_start : Option Int
  cache_end : Option Int
deriving DecidableEq, Repr

/-- `get_all_data_access_logs` (logging.py:81-276) after the backend
returned `entries` for the window: the loop appends to
`self.data_access_logs` (never cleared) and the cache window is set;
the accumulated list is returned. -/
def get_all_data_access_logs (st : LogState) (startT endT : Int)
    (entries : List LogEntry) : LogState × List AccessRecord :=
  ({ data_access_logs := st.data_access_logs ++ normalizeEntries entries,
     cached := true,
     cache_start := some startT,
     cache_end := some endT },
   st.data_access_logs ++ normalizeEntries entries)

/-- The cache test of logging.py:351-356: cached, both bounds present, and
the requested interval is a sub-interval of the cached window. -/
def cacheCovers (st : LogState) (s e : Int) : Bool :=
  st.cached &&
    (match st.cache_start, st.cache_end with
     | some cs, some ce => decide (cs ≤ s) && decide (e ≤ ce)
     | _, _ => false)

/-- Python `path.count(".")`. -/
def dotCount (s : String) : Nat := s.data.count '.'

/-- Python `str.lower()` (ASCII; table ids are ASCII). -/
def strLower (s : String) : String := String.mk (s.data.map Char.toLower)

/-- The comprehension of logging.py:361-366: one copy of a record per
cached table matching the queried id case-insensitively. -/
def matchingRecords (logs : List AccessRecord) (path : String) :
    List AccessRecord :=
  logs.flatMap (fun x =>
    (x.referenced_tables.filter (fun t => strLower t = strLower path)).map
      (fun _ => x))

/-- `get_all_data_access_logs_by_table_id` (logging.py:316-366) with the
interval already resolved; the `startT > endT` failure is the one raised by
the nested `_calculate_interval` of the re-pull call (logging.py:357-359),
reachable only when the cache does not cover the window. -/
def get_all_data_access_logs_by_table_id (st : LogState) (startT endT : Int)
    (path : String) (entries : List LogEntry) :
    Except String (LogState × List AccessRecord) :=
  if dotCount path ≠ 2 then
    Except.error
      "The first parameter must be in the format project.dataset.table."
  else if cacheCovers st startT endT then
    Except.ok (st, matchingRecords st.data_access_logs path)
  else if startT > endT then
    Except.error "Start time must be before end time."
  else
    Except.ok ((get_all_data_access_logs st startT endT entries).1,
      matchingRecords
        (get_all_data_access_logs st startT endT entries).1.data_access_logs
        path)

/-- The client state after the cache check of a by-table-id query: unchanged
when the cached window covers the request, else the state of a fresh pull. -/
def afterCacheState (st : LogState) (s e : Int) (entries : List LogEntry) :
    LogState :=
  if cacheCovers st s e then st else (get_all_data_access_logs st s e entries).1

/-- The inner `flatten_dictionary` of `_flatten_dictionaries`
(logging.py:279-292): nested mappings become dotted-path keys; lists and
scalars are kept as values. Records have pairwise-distinct keys, so dict
insertion order is the order of first encounter, as in this list. -/
def flattenDictionary : List (String × Json) → String → String →
    List (String × Json)
  | [], _, _ => []
  | (k, v) :: rest, parentKey, separator =>
    (match v with
     | Json.obj fs =>
       flattenDictionary fs
         (if parentKey = "" then k else parentKey ++ separator ++ k)
         separator
     | other =>
       [(if parentKey = "" then k else parentKey ++ separator ++ k, other)])
      ++ flattenDictionary rest parentKey separator

/-- The list-valued fields of a flattened record. -/
def listFields (rv : List (String × Json)) : List (String × Json) :=
  rv.filter (fun kv => kv.2.isList)

/-- The explosion loop of `_flatten_dictionaries` (logging.py:297-313):
if any field holds a list, each list-valued field is exploded
independently — one output row per element, all other fields copied, the
exploded field re-inserted last (Python dict insertion order); otherwise
the flattened record itself is the single row. -/
def explodeRecord (rv : List (String × Json)) :
    List (List (String × Json)) :=
  if rv.any (fun kv => kv.2.isList) then
    rv.flatMap (fun kv =>
      match kv.2 with
      | Json.arr items =>
        items.map (fun item =>
          rv.filter (fun kv2 => ¬(kv2.1 = kv.1)) ++ [(kv.1, item)])
      | _ => [])
  else [rv]

/-- `LoggingClient._flatten_dictionaries` (logging.py:278-314) over the
stored records (each an association list in insertion order). -/
def flatten_dictionaries (logs : List (List (String × Json))) :
    List (List (String × Json)) :=
  logs.flatMap (fun item => explodeRecord (flattenDictionary item "" "."))

/-- A Python exception relevant to the check runner: `TypeError` and
`ValueError` are caught by `run_data_checks`; anything else (e.g. the
`AttributeError` of `None.strip()`) is `otherError`. -/
inductive PyErr where
  | typeError (msg : String)
  | valueError (msg : String)
  | otherError (msg : String)
deriving DecidableEq, Repr

/-- `except (TypeError, ValueError)` of data_checks.py:83. -/
def isCaught : PyErr → Bool
  | PyErr.typeError _ => true
  | PyErr.valueError _ => true
  | PyErr.otherError _ => false

/-- A row as produced by `csv.DictReader`: one entry per header field
(missing trailing values filled with the `restval` default `None`), plus
the `restkey` entry collecting extra values when the raw row is longer
than the header. -/
structure CsvRow where
  fields : List (String × Option String)
  rest : Option (List String)
deriving DecidableEq, Repr

/-- The header-length prefix of the raw values, padded with `None`. -/
def padTo (vals : List String) (n : Nat) : List (Option String) :=
  (List.range n).map (fun i => vals[i]?)

/-- `csv.DictReader.__next__` building a dict from one raw row:
`d = dict(zip(fieldnames, row))`, then missing fields are set to `None`
and extra values are collected under `restkey`. -/
def dictReaderRow (header : List String) (vals : List String) : CsvRow :=
  { fields := header.zip (padTo vals header.length),
    rest := if header.length < vals.length then
        some (vals.drop header.length)
      else none }

/-- First binding of a column in the row dict. -/
def lookupVal : List (String × Option String) → String →
    Option (Option String)
  | [], _ => none
  | (k, v) :: rest, key => if k = key then some v else lookupVal rest key

/-- `row.get(col)`: Python returns `None` both for an absent key and for a
present `None` value. -/
def rowGet (row : CsvRow) (col : String) : Option String :=
  (lookupVal row.fields col).bind id

/-- `len(row)` of the DictReader dict (header fields plus the `restkey`
entry when present; header names are pairwise distinct). -/
def rowLen (row : CsvRow) : Nat :=
  row.fields.length + (if row.rest.isSome then 1 else 0)

/-- `column_sums`: per-column accumulator sets (elements are row values,
which may be `None`). -/
abbrev ColState := List (String × List (Option String))

/-- `column_sums.get(col)` (defaulting to the empty set; the runner
initialises one set per header column). -/
def sumsGet (st : ColState) (col : String) : List (Option String) :=
  match st with
  | [] => []
  | (k, v) :: rest => if k = col then v else sumsGet rest col

/-- `column_sums.get(col).add(v)` (in-place set insertion). -/
def sumsAdd (st : ColState) (col : String) (v : Option String) : ColState :=
  st.map (fun kv =>
    if kv.1 = col then (kv.1, if v ∈ kv.2 then kv.2 else kv.2 ++ [v])
    else kv)

/-- Result of one check invocation: the accumulator state after the call
(mutations before a raise persist) and the raised exception, if any. -/
abbrev CheckResult := ColState × Option PyErr

/-- The check-function contract of `run_data_checks`:
`(idx, row, header, column_sums)`. -/
abbrev CheckFn := Nat → CsvRow → List String → ColState → CheckResult

/-- Python `f"{v}"` for a row value (`None` renders as `None`). -/
def showOptVal : Option String → String
  | some s => s
  | none => "None"

/-- `check_columns` (data_checks.py:90-124). -/
def check_columns : CheckFn := fun idx row header st =>
  if rowLen row ≠ header.length then
    (st, some (PyErr.valueError ("row " ++ toString idx ++
      " has a different number of values. Row length: " ++
      toString (rowLen row) ++ ", Number of columns: " ++
      toString header.length)))
  else (st, none)

/-- `columns_to_test or header`: `None` and the empty list are falsy. -/
def resolveCols (cols : Option (List String)) (header : List String) :
    List String :=
  match cols with
  | none => header
  | some [] => header
  | some l => l

/-- The column loop of `check_unique` (data_checks.py:160-173): for each
column in list order, first the header-membership test, then the
duplicate test against the accumulator, then the accumulator insertion. -/
def checkUniqueCols : List String → Nat → CsvRow → List String →
    ColState → CheckResult
  | [], _, _, _, st => (st, none)
  | c :: rest, idx, row, header, st =>
    if c ∉ header then
      (st, some (PyErr.valueError ("Column " ++ c ++
        " not found in the header.")))
    else if rowGet row c ∈ sumsGet st c then
      (st, some (PyErr.valueError ("Duplicate value " ++
        showOptVal (rowGet row c) ++ " found at row " ++ toString idx ++
        " in column " ++ c ++ ".")))
    else checkUniqueCols rest idx row header (sumsAdd st c (rowGet row c))

/-- `check_unique` (data_checks.py:127-173). -/
def check_unique (cols : Option (List String)) : CheckFn :=
  fun idx row header st =>
    checkUniqueCols (resolveCols cols header) idx row header st

/-- Python `str.strip()` (whitespace at both ends). -/
def pyStrip (s : String) : String :=
  String.mk
    (((s.data.dropWhile Char.isWhitespace).reverse.dropWhile
      Char.isWhitespace).reverse)

/-- The column loop of `check_no_nulls` (data_checks.py:210-219):
`row.get(col).strip()` raises `AttributeError` when the value is `None`
(e.g. a short row padded by DictReader). -/
def checkNoNullsCols : List String → Nat → CsvRow → List String →
    ColState → CheckResult
  | [], _, _, _, st => (st, none)
  | c :: rest, idx, row, header, st =>
    if c ∉ header then
      (st, some (PyErr.valueError ("Column " ++ c ++
        " not found in the header.")))
    else if row.fields = [] ∧ row.rest = none then
      (st, some (PyErr.valueError ("NULL value found at row " ++
        toString idx ++ " in column " ++ c ++ ".")))
    else
      match rowGet row c with
      | none => (st, some (PyErr.otherError
          "AttributeError: NoneType object has no attribute strip"))
      | some v =>
        if pyStrip v = "" then
          (st, some (PyErr.valueError ("NULL value found at row " ++
            toString idx ++ " in column " ++ c ++ ".")))
        else checkNoNullsCols rest idx row header st

/-- `check_no_nulls` (data_checks.py:176-219). -/
def check_no_nulls (cols : Option (List String)) : CheckFn :=
  fun idx row header st =>
    checkNoNullsCols (resolveCols cols header) idx row header st

/-- Digit-string to number, for the integer fragment of Python `float`. -/
def digitsToNat (cs : List Char) : Option Nat :=
  if cs ≠ [] ∧ cs.all Char.isDigit then
    some (cs.foldl (fun acc c => acc * 10 + (c.toNat - 48)) 0)
  else none

/-- `float(value)` restricted to integer-formatted strings (no claim
depends on fractional or exponent forms). -/
def parsePyInt (s : String) : Option Int :=
  match s.data with
  | '-' :: rest => (digitsToNat rest).map (fun n => -(n : Int))
  | '+' :: rest => (digitsToNat rest).map (fun n => (n : Int))
  | cs => (digitsToNat cs).map (fun n => (n : Int))

/-- The column loop of `check_numeric_range` (data_checks.py:267-300):
header-membership test first, then empty/`None` values pass, non-numeric
values fail, out-of-range values fail. -/
def checkNumericRangeCols (minV maxV : Int) : List String → Nat → CsvRow →
    List String → ColState → CheckResult
  | [], _, _, _, st => (st, none)
  | c :: rest, idx, row, header, st =>
    if c ∉ header then
      (st, some (PyErr.valueError ("Column " ++ c ++
        " not found in the header.")))
    else
      match rowGet row c with
      | none => checkNumericRangeCols minV maxV rest idx row header st
      | some v =>
        if v = "" then checkNumericRangeCols minV maxV rest idx row header st
        else
          match parsePyInt v with
          | none => (st, some (PyErr.valueError ("non-numeric value " ++
              v ++ " found at row " ++ toString idx ++ " in column " ++
              c ++ ".")))
          | some n =>
            if n < minV ∨ n > maxV then
              (st, some (PyErr.valueError ("value " ++ toString n ++
                " found at row " ++ toString idx ++ " in column " ++ c ++
                " is out of range (" ++ toString minV ++ " to " ++
                toString maxV ++ ").")))
            else checkNumericRangeCols minV maxV rest idx row header st

/-- `check_numeric_range` (data_checks.py:222-300): both bounds are
required before any column is examined. -/
def check_numeric_range (cols : Option (List String))
    (minV maxV : Option Int) : CheckFn := fun idx row header st =>
  if minV = none ∨ maxV = none then
    (st, some (PyErr.valueError "Min value or max value missing!"))
  else
    checkNumericRangeCols (minV.getD 0) (maxV.getD 0)
      (resolveCols cols header) idx row header st

/-- The inner check loop of `run_data_checks` (data_checks.py:80-85): the
checks of one row in list order, stopping at the first raised exception. -/
def runRowChecks : List CheckFn → Nat → CsvRow → List String → ColState →
    CheckResult
  | [], _, _, _, st => (st, none)
  | f :: fs, idx, row, header, st =>
    match f idx row header st with
    | (st', none) => runRowChecks fs idx row header st'
    | (st', some e) => (st', some e)

/-- The row loop of `run_data_checks` (data_checks.py:78-87): rows are
1-indexed; a caught (`TypeError`/`ValueError`) exception logs and returns
`False` for the whole run, any other exception propagates. -/
def runRows : List CheckFn → Nat → List CsvRow → List String → ColState →
    Except PyErr Bool
  | _, _, [], _, _ => Except.ok true
  | fs, idx, row :: rest, header, st =>
    match runRowChecks fs idx row header st with
    | (st', none) => runRows fs (idx + 1) rest header st'
    | (_, some e) =>
      if isCaught e then Except.ok false else Except.error e

/-- `column_sums = {n: set() for n in header}` (data_checks.py:75). -/
def initColState (header : List String) : ColState :=
  header.map (fun n => (n, []))

/-- `run_data_checks` (data_checks.py:14-87) after the input stream is
resolved: `header` is `reader.fieldnames` (`none` when the file is empty),
`rows` the parsed data rows. An empty check list and a missing header
raise `ValueError` outside the `try`, hence are not converted to `False`. -/
def run_data_checks (header : Option (List String)) (checks : List CheckFn)
    (rows : List CsvRow) : Except PyErr Bool :=
  if checks.isEmpty then
    Except.error (PyErr.valueError "Should pass at least one test function.")
  else
    match header with
    | none =>
      Except.error (PyErr.valueError "CSV with wrong format or missing header.")
    | some h =>
      if h = [] then
        Except.error
          (PyErr.valueError "CSV with wrong format or missing header.")
      else runRows checks 1 rows h (initColState h)

/-- Specification-side recursion: the first exception raised during a run
(same threading of the accumulator state, no conversion to a boolean). -/
def firstRunError : List CheckFn → Nat → List CsvRow → List String →
    ColState → Option PyErr
  | _, _, [], _, _ => none
  | fs, idx, row :: rest, header, st =>
    match runRowChecks fs idx row header st with
    | (st', none) => firstRunError fs (idx + 1) rest header st'
    | (_, some e) => some e

/-- `flatten_dictionary(item)` with the default arguments
`parent_key=""`, `separator="."`, as called at logging.py:296. -/
def flattenRecord (r : List (String × Json)) : List (String × Json) :=
  flattenDictionary r "" "."

/-- A raw entry whose only signal is a granted `authorizationInfo` table
resource: classified `Other`, one extracted table. -/
def samplePayload : Json := Json.obj [
  ("authenticationInfo", Json.obj
    [("principalEmail", Json.str "bob@example.com")]),
  ("authorizationInfo", Json.arr [Json.obj [
    ("resource", Json.str "projects/p/datasets/d/tables/t"),
    ("granted", Json.bool true)]])]

/-- A concrete raw log entry built from `samplePayload`. -/
def sampleEntry : LogEntry :=
  { insert_id := "id1", timestamp := "2024-01-01T00:00:00",
    payload := samplePayload }

/-- The normalized record of `sampleEntry`. -/
def sampleRecord : AccessRecord :=
  { id := "id1", timestamp := "2024-01-01T00:00:00",
    user_email := "bob@example.com", request_source_origin := "Other",
    referenced_tables := ["p.d.t"], dt_project_id := none,
    dt_config_id := none, ls_dashboard_id := none,
    ls_datasource_id := none }

/-- A record sitting in the cache before a fresh pull. -/
def cachedRecord : AccessRecord :=
  { id := "cached0", timestamp := "2023-12-01T00:00:00",
    user_email := "alice@example.com",
    request_source_origin := "Query / API",
    referenced_tables := ["p.d.t"], dt_project_id := none,
    dt_config_id := none, ls_dashboard_id := none,
    ls_datasource_id := none }

/-- A client state caching window [0, 10] with one stored record. -/
def staleState : LogState :=
  { data_access_logs := [cachedRecord], cached := true,
    cache_start := some 0, cache_end := some 10 }

/-- A stored record with one list-valued field and one nested mapping. -/
def sampleFlatInput : List (String × Json) :=
  [("k1", Json.arr [Json.str "1", Json.str "2"]),
   ("k2", Json.obj [("a", Json.str "x")])]
/-- C1: the classifier is first-match-wins over the fixed rule order. -/
theorem classification_first_match_wins (p : Json)
    (hwf : classifyWF p = true) :
    (requestSourceOrigin p = "Datatransfer" ↔ condDatatransfer p = true) ∧
    (requestSourceOrigin p = "Looker Studio" ↔
      (condDatatransfer p = false ∧ condLookerStudio p = true)) ∧
    (requestSourceOrigin p = "Power BI" ↔
      (condDatatransfer p = false ∧ condLookerStudio p = false ∧
        condPowerBi p = true)) ∧
    (requestSourceOrigin p = "Query / API" ↔
      (condDatatransfer p = false ∧ condLookerStudio p = false ∧
        condPowerBi p = false ∧ condQueryApi p = true)) ∧
    (requestSourceOrigin p = "Other" ↔
      (condDatatransfer p = false ∧ condLookerStudio p = false ∧
        condPowerBi p = false ∧ condQueryApi p = false)) := by
  cases h1 : condDatatransfer p <;>
    cases h2 : condLookerStudio p <;>
      cases h3 : condPowerBi p <;>
        cases h4 : condQueryApi p <;>
          simp [requestSourceOrigin, h1, h2, h3, h4, sourceOriginType]

/-- Witness for C1 at a concrete payload: the data-transfer signature rule
fires and yields the `Datatransfer` label. -/
theorem classification_first_match_wins_witness :
    classifyWF (Json.obj [("requestMetadata", Json.obj
      [("callerSuppliedUserAgent",
        Json.str "BigQuery Data Transfer Service")])]) = true ∧
    requestSourceOrigin (Json.obj [("requestMetadata", Json.obj
      [("callerSuppliedUserAgent",
        Json.str "BigQuery Data Transfer Service")])]) = "Datatransfer" :=
  ⟨by decide,
    ((classification_first_match_wins _ (by decide)).1).mpr (by decide)⟩

/-- C3: an entry whose extracted referenced-tables set is empty is dropped
by the normalization pass, so every record in the output has a non-empty
table list. -/
theorem normalized_records_have_nonempty_tables (entries : List LogEntry)
    (r : AccessRecord) (hr : r ∈ normalizeEntries entries) :
    r.referenced_tables ≠ [] := by
  rw [normalizeEntries, List.mem_filterMap] at hr
  obtain ⟨e, -, hn⟩ := hr
  rw [normalizeEntry] at hn
  by_cases h : extractTables e.payload (requestSourceOrigin e.payload) = []
  · rw [if_pos h] at hn
    exact absurd hn (by simp)
  · rw [if_neg h] at hn
    obtain rfl := Option.some.inj hn
    exact h

set_option maxRecDepth 8192 in
/-- Witness for C3: a concrete pass produces `sampleRecord`, whose
referenced-tables list is non-empty. -/
theorem normalized_records_have_nonempty_tables_witness :
    sampleRecord ∈ normalizeEntries [sampleEntry] ∧
      sampleRecord.referenced_tables ≠ [] :=
  ⟨by decide,
    normalized_records_have_nonempty_tables [sampleEntry] sampleRecord
      (by decide)⟩

/-- C6 counterexample: with only a (negative) day count, the resolved
start lies after the resolved end, yet `_calculate_interval` succeeds
instead of raising the invalid-argument error the claim requires. -/
theorem days_interval_skips_order_validation_cex :
    calculate_interval 0 0 [PyArg.intArg (-5)]
        { days := none, start_time := none, end_time := none } =
      Except.ok (432000, 0) ∧ ((432000 : Int) > (0 : Int)) := ⟨rfl, by decide⟩

/-- C6 (amended): the days form returns (now − N days, now) with no
ordering validation; the explicit form defaults end to now and fails iff
start > end; with neither form an invalid-argument error is raised. -/
theorem calculate_interval_cases (now1 now2 : Int) (args : List PyArg)
    (kw : IntervalKwargs) :
    (∀ d, (firstIntArg args).orElse (fun _ => kw.days) = some d →
      calculate_interval now1 now2 args kw =
        Except.ok (now1 - d * 86400, now2)) ∧
    ((firstIntArg args).orElse (fun _ => kw.days) = none →
      kw.start_time = none →
      calculate_interval now1 now2 args kw =
        Except.error "Invalid arguments, datetime range missing.") ∧
    (∀ s, (firstIntArg args).orElse (fun _ => kw.days) = none →
      kw.start_time = some s → s > kw.end_time.getD now2 →
      calculate_interval now1 now2 args kw =
        Except.error "Start time must be before end time.") ∧
    (∀ s, (firstIntArg args).orElse (fun _ => kw.days) = none →
      kw.start_time = some s → s ≤ kw.end_time.getD now2 →
      calculate_interval now1 now2 args kw =
        Except.ok (s, kw.end_time.getD now2)) := by
  refine ⟨fun d hd => ?_, fun h1 h2 => ?_, fun s h1 h2 h3 => ?_,
    fun s h1 h2 h3 => ?_⟩
  · simp [calculate_interval, hd]
  · simp [calculate_interval, h1, h2]
  · simp [calculate_interval, h1, h2, h3]
  · simp [calculate_interval, h1, h2, not_lt.mpr h3]

/-- Witness for C6 (amended): an explicit pair with start after end fails
with the ordering error. -/
theorem calculate_interval_cases_witness :
    calculate_interval 0 0 []
        { days := none, start_time := some 5, end_time := some 3 } =
      Except.error "Start time must be before end time." :=
  (calculate_interval_cases 0 0 []
    { days := none, start_time := some 5, end_time := some 3 }).2.2.1 5
    rfl rfl (by decide)

/-- C8 counterexample: a streamed row with fewer values than the header is
padded by `csv.DictReader`, so `check_columns` raises no error for it,
contradicting the claim that such a row fails. -/
theorem short_row_passes_column_count_cex :
    (["1"] : List String).length < (["a", "b"] : List String).length ∧
    check_columns 1 (dictReaderRow ["a", "b"] ["1"]) ["a", "b"] [] =
      ([], none) := by decide

/-- C8 (amended): through `csv.DictReader`, `check_columns` fails a row iff
the row carries more values than the header (extras land under the rest
key, growing the dict); rows with fewer values are padded to the header
length and pass. -/
theorem column_count_fails_iff_extra_values (header vals : List String)
    (idx : Nat) (st : ColState) (hnd : header.Nodup) :
    (check_columns idx (dictReaderRow header vals) header st).2.isSome ↔
      header.length < vals.length := by
  unfold check_columns rowLen dictReaderRow padTo
  by_cases h : header.length < vals.length
  · simp [h]
  · simp [h]

/-- Witness for C8 (amended): a row with one extra value fails the
column-count check. -/
theorem column_count_fails_iff_extra_values_witness :
    (check_columns 1 (dictReaderRow ["a", "b"] ["1", "2", "3"])
        ["a", "b"] []).2.isSome :=
  (column_count_fails_iff_extra_values ["a", "b"] ["1", "2", "3"] 1 []
    (by decide)).mpr (by decide)

set_option maxRecDepth 8192 in
/-- C2 counterexample: a query outside the cached window re-pulls, but the
new records are appended to the cached list — the cached record is still
present, so the list is not replaced as the claim states. -/
theorem repull_appends_rather_than_replaces_cex :
    cacheCovers staleState 20 30 = false ∧
    get_all_data_access_logs_by_table_id staleState 20 30 "p.d.t"
        [sampleEntry] =
      Except.ok
        ({ data_access_logs := [cachedRecord, sampleRecord], cached := true,
           cache_start := some 20, cache_end := some 30 },
         [cachedRecord, sampleRecord]) ∧
    ¬([cachedRecord, sampleRecord] = [sampleRecord]) :=
  ⟨by decide, rfl, by decide⟩

/-- C2 (amended): a sub-interval query is served from the cached records
with no pull (the state is unchanged and the backend entries are never
consulted); a non-covered query re-pulls and APPENDS the new records to
the cached list (the previous records are retained, not replaced), after
which the cache window equals the new interval. -/
theorem cache_subinterval_serves_and_repull_appends
    (st : LogState) (s e : Int) (path : String) (entries : List LogEntry)
    (hpath : dotCount path = 2) :
    (cacheCovers st s e = true →
      get_all_data_access_logs_by_table_id st s e path entries =
        Except.ok (st, matchingRecords st.data_access_logs path)) ∧
    (cacheCovers st s e = false → s ≤ e →
      get_all_data_access_logs_by_table_id st s e path entries =
        Except.ok
          ({ data_access_logs :=
               st.data_access_logs ++ normalizeEntries entries,
             cached := true, cache_start := some s, cache_end := some e },
           matchingRecords
             (st.data_access_logs ++ normalizeEntries entries) path)) := by
  constructor
  · intro hc
    simp [get_all_data_access_logs_by_table_id, hpath, hc]
  · intro hc hse
    simp [get_all_data_access_logs_by_table_id, hpath, hc,
      get_all_data_access_logs, not_lt.mpr hse]

/-- Witness for C2 (amended): a covered sub-interval query leaves the
state untouched and answers from the cache. -/
theorem cache_subinterval_serves_and_repull_appends_witness :
    get_all_data_access_logs_by_table_id staleState 2 5 "p.d.t" [] =
      Except.ok (staleState, matchingRecords staleState.data_access_logs
        "p.d.t") :=
  (cache_subinterval_serves_and_repull_appends staleState 2 5 "p.d.t" []
    (by decide)).1 (by decide)

/-- C9: a queried table id without exactly two dot separators fails with
the format error; a well-formed id returns, over the post-cache-check
record list, exactly the records having some referenced table equal to the
id case-insensitively. -/
theorem table_id_lookup_format_and_matching
    (st : LogState) (s e : Int) (path : String) (entries : List LogEntry) :
    (dotCount path ≠ 2 →
      get_all_data_access_logs_by_table_id st s e path entries =
        Except.error
          "The first parameter must be in the format project.dataset.table.") ∧
    (dotCount path = 2 → s ≤ e →
      get_all_data_access_logs_by_table_id st s e path entries =
        Except.ok (afterCacheState st s e entries,
          matchingRecords
            (afterCacheState st s e entries).data_access_logs path)) ∧
    (∀ logs r, r ∈ matchingRecords logs path ↔
      r ∈ logs ∧ ∃ t ∈ r.referenced_tables, strLower t = strLower path) := by
  refine ⟨fun h => ?_, fun h hse => ?_, fun logs r => ?_⟩
  · simp [get_all_data_access_logs_by_table_id, h]
  · unfold afterCacheState
    by_cases hc : cacheCovers st s e
    · simp [get_all_data_access_logs_by_table_id, h, hc]
    · simp [get_all_data_access_logs_by_table_id, h, hc, not_lt.mpr hse]
  · simp only [matchingRecords, List.mem_flatMap, List.mem_map,
      List.mem_filter]
    constructor
    · rintro ⟨x, hx, t, ⟨ht, hlow⟩, rfl⟩
      exact ⟨hx, t, ht, by simpa using hlow⟩
    · rintro ⟨hx, t, ht, hlow⟩
      exact ⟨r, hx, t, ⟨ht, by simpa using hlow⟩, rfl⟩

/-- Witness for C9: the malformed id `invalid_format` fails with the
format error. -/
theorem table_id_lookup_format_and_matching_witness :
    get_all_data_access_logs_by_table_id staleState 0 10 "invalid_format"
        [] =
      Except.error
        "The first parameter must be in the format project.dataset.table." :=
  (table_id_lookup_format_and_matching staleState 0 10 "invalid_format"
    []).1 (by decide)

/-- Lookup distributes over append (first list wins). -/
theorem lookupField_append (l1 l2 : List (String × Json)) (key : String) :
    lookupField (l1 ++ l2) key =
      match lookupField l1 key with
      | some v => some v
      | none => lookupField l2 key := by
  induction l1 with
  | nil => rfl
  | cons a rest ih =>
    obtain ⟨k, v⟩ := a
    rw [List.cons_append, lookupField, lookupField]
    by_cases h : k = key
    · simp [h]
    · simp [h, ih]

/-- After filtering a key out, looking it up fails. -/
theorem lookupField_filter_self (r : List (String × Json)) (k : String) :
    lookupField (r.filter (fun kv2 => ¬(kv2.1 = k))) k = none := by
  induction r with
  | nil => rfl
  | cons a rest ih =>
    obtain ⟨ka, v⟩ := a
    rw [List.filter_cons]
    by_cases h : ka = k
    · simp only [decide_not] at ih ⊢
      simp [h, ih]
    · simp only [decide_not] at ih ⊢
      simp [h, lookupField, ih]

/-- Filtering a key out does not disturb lookups of other keys. -/
theorem lookupField_filter_ne (r : List (String × Json)) (k k2 : String)
    (h : ¬(k2 = k)) :
    lookupField (r.filter (fun kv => ¬(kv.1 = k))) k2 =
      lookupField r k2 := by
  induction r with
  | nil => rfl
  | cons a rest ih =>
    obtain ⟨ka, v⟩ := a
    rw [List.filter_cons]
    simp only [decide_not] at ih ⊢
    have hkk2 : ¬(k = k2) := fun hh => h hh.symm
    by_cases ha : ka = k
    · have hk2 : ¬(ka = k2) := by
        rw [ha]
        exact hkk2
      simp [ha, lookupField, hk2, hkk2, ih]
    · by_cases hk2 : ka = k2
      · simp [ha, lookupField, hk2, h]
      · simp [ha, lookupField, hk2, ih]

/-- A flat-mapped function that is empty off the list-valued fields
contributes nothing when no field is list-valued. -/
theorem flatMap_nil_of_filter_nil {β : Type} (g : String × Json → List β)
    (l : List (String × Json))
    (hg : ∀ kv : String × Json, kv.2.isList = false → g kv = [])
    (h : l.filter (fun kv => kv.2.isList) = []) :
    l.flatMap g = [] := by
  induction l with
  | nil => rfl
  | cons b rest ih =>
    rw [List.filter_cons] at h
    by_cases hb : b.2.isList
    · rw [if_pos hb] at h
      exact absurd h (by simp)
    · rw [if_neg hb] at h
      rw [List.flatMap_cons, hg b (by simpa using hb), List.nil_append]
      exact ih h

/-- With exactly one list-valued field, the explosion flat-map degenerates
to that field's contribution. -/
theorem flatMap_eq_of_filter_single {β : Type} (g : String × Json → List β)
    (l : List (String × Json)) (a : String × Json)
    (hg : ∀ kv : String × Json, kv.2.isList = false → g kv = [])
    (h : l.filter (fun kv => kv.2.isList) = [a]) :
    l.flatMap g = g a := by
  induction l with
  | nil => simp at h
  | cons b rest ih =>
    rw [List.filter_cons] at h
    by_cases hb : b.2.isList
    · rw [if_pos hb] at h
      injection h with hba hrest
      subst hba
      rw [List.flatMap_cons, flatMap_nil_of_filter_nil g rest hg hrest,
        List.append_nil]
    · rw [if_neg hb] at h
      rw [List.flatMap_cons, hg b (by simpa using hb), List.nil_append]
      exact ih h

/-- C4: a flattened record with exactly one list-valued field of length N
explodes into exactly N rows — each holding one list element under that
field's key and agreeing with the flattened record on every other key —
and a record with no list-valued field yields exactly the one flattened
row. -/
theorem flatten_single_list_field_explosion (r : List (String × Json)) :
    (∀ k xs, listFields (flattenRecord r) = [(k, Json.arr xs)] →
      explodeRecord (flattenRecord r) =
        xs.map (fun item =>
          (flattenRecord r).filter (fun kv2 => ¬(kv2.1 = k)) ++
            [(k, item)]) ∧
      (explodeRecord (flattenRecord r)).length = xs.length ∧
      ∀ i (hi1 : i < (explodeRecord (flattenRecord r)).length)
        (hi2 : i < xs.length),
        lookupField ((explodeRecord (flattenRecord r))[i]) k =
          some (xs[i]) ∧
        ∀ k2, ¬(k2 = k) →
          lookupField ((explodeRecord (flattenRecord r))[i]) k2 =
            lookupField (flattenRecord r) k2) ∧
    (listFields (flattenRecord r) = [] →
      explodeRecord (flattenRecord r) = [flattenRecord r]) := by
  constructor
  · intro k xs h
    rw [listFields] at h
    have hg : ∀ kv : String × Json, kv.2.isList = false →
        (match kv.2 with
         | Json.arr items =>
           items.map (fun item =>
             (flattenRecord r).filter (fun kv2 => ¬(kv2.1 = kv.1)) ++
               [(kv.1, item)])
         | _ => ([] : List (List (String × Json)))) = [] := by
      intro kv hv
      obtain ⟨kk, vv⟩ := kv
      cases vv <;> first
        | rfl
        | (exfalso; simp [Json.isList] at hv)
    have hany : (flattenRecord r).any (fun kv => kv.2.isList) = true := by
      rw [List.any_eq_true]
      have hmem : (k, Json.arr xs) ∈
          (flattenRecord r).filter (fun kv => kv.2.isList) := by
        rw [h]
        exact List.mem_singleton.mpr rfl
      have := List.mem_filter.mp hmem
      exact ⟨(k, Json.arr xs), this.1, this.2⟩
    have hexp : explodeRecord (flattenRecord r) =
        xs.map (fun item =>
          (flattenRecord r).filter (fun kv2 => ¬(kv2.1 = k)) ++
            [(k, item)]) := by
      rw [explodeRecord, if_pos hany]
      exact flatMap_eq_of_filter_single _ (flattenRecord r)
        (k, Json.arr xs) hg h
    refine ⟨hexp, by rw [hexp, List.length_map], ?_⟩
    intro i hi1 hi2
    have hrow : (explodeRecord (flattenRecord r))[i] =
        (flattenRecord r).filter (fun kv2 => ¬(kv2.1 = k)) ++
          [(k, xs[i])] := by
      simp only [hexp, List.getElem_map]
    constructor
    · rw [hrow, lookupField_append, lookupField_filter_self]
      simp [lookupField]
    · intro k2 hk2
      rw [hrow, lookupField_append, lookupField_filter_ne _ _ _ hk2]
      cases hl : lookupField (flattenRecord r) k2
      · have hkk : ¬(k = k2) := fun hh => hk2 hh.symm
        simp [lookupField, hkk]
      · rfl
  · intro h
    rw [listFields] at h
    have hany : (flattenRecord r).any (fun kv => kv.2.isList) = false := by
      rw [List.any_eq_false]
      intro x hx
      have := List.filter_eq_nil_iff.mp h x hx
      simpa using this
    rw [explodeRecord, if_neg (by simp [hany])]

set_option maxRecDepth 8192 in
/-- Witness for C4: the two-element list field of `sampleFlatInput`
(whose other field is a nested mapping) explodes into exactly two rows. -/
theorem flatten_single_list_field_explosion_witness :
    listFields (flattenRecord sampleFlatInput) =
      [("k1", Json.arr [Json.str "1", Json.str "2"])] ∧
    (explodeRecord (flattenRecord sampleFlatInput)).length = 2 := by
  have h : listFields (flattenRecord sampleFlatInput) =
      [("k1", Json.arr [Json.str "1", Json.str "2"])] := by
    simp [flattenRecord, flattenDictionary, sampleFlatInput, listFields,
      Json.isList]
  exact ⟨h, ((flatten_single_list_field_explosion sampleFlatInput).1 "k1"
    [Json.str "1", Json.str "2"] h).2.1.trans rfl⟩

/-- The runner's result is determined by the first exception of the run:
no exception means `True`, a caught one means `False`, any other
propagates. -/
theorem runRows_eq_firstRunError (fs : List CheckFn) (rows : List CsvRow)
    (idx : Nat) (header : List String) (st : ColState) :
    runRows fs idx rows header st =
      match firstRunError fs idx rows header st with
      | none => Except.ok true
      | some e => if isCaught e then Except.ok false else Except.error e := by
  induction rows generalizing idx st with
  | nil => rfl
  | cons row rest ih =>
    rw [runRows, firstRunError]
    cases hr : runRowChecks fs idx row header st with
    | mk st2 err =>
      cases err with
      | none => exact ih (idx + 1) st2
      | some e => rfl

/-- C5: `run_data_checks` starts at row 1; within a row the checks run in
list order and the first raised exception decides; a caught validation
error turns the whole run into `False` irrespective of the remaining
rows; an error-free row hands the threaded accumulator to the rest; the
run returns `True` iff no check raised anywhere. -/
theorem run_checks_stops_at_first_validation_error
    (header : List String) (checks : List CheckFn) (rows : List CsvRow)
    (hchecks : checks ≠ []) (hheader : header ≠ []) :
    (run_data_checks (some header) checks rows =
      runRows checks 1 rows header (initColState header)) ∧
    (∀ idx st row rest st2 e,
      runRowChecks checks idx row header st = (st2, some e) →
      isCaught e = true →
      runRows checks idx (row :: rest) header st = Except.ok false) ∧
    (∀ idx st row rest st2,
      runRowChecks checks idx row header st = (st2, none) →
      runRows checks idx (row :: rest) header st =
        runRows checks (idx + 1) rest header st2) ∧
    (∀ (f : CheckFn) (fs : List CheckFn) idx row st st2 e,
      f idx row header st = (st2, some e) →
      runRowChecks (f :: fs) idx row header st = (st2, some e)) ∧
    (∀ (f : CheckFn) (fs : List CheckFn) idx row st st2,
      f idx row header st = (st2, none) →
      runRowChecks (f :: fs) idx row header st =
        runRowChecks fs idx row header st2) ∧
    (runRows checks 1 rows header (initColState header) = Except.ok true ↔
      firstRunError checks 1 rows header (initColState header) = none) := by
  refine ⟨?_, ?_, ?_, ?_, ?_, ?_⟩
  · rw [run_data_checks]
    rw [if_neg (by simpa [List.isEmpty_iff] using hchecks)]
    rw [if_neg hheader]
  · intro idx st row rest st2 e hrr hc
    rw [runRows, hrr]
    simp [hc]
  · intro idx st row rest st2 hrr
    rw [runRows, hrr]
  · intro f fs idx row st st2 e hf
    rw [runRowChecks, hf]
  · intro f fs idx row st st2 hf
    rw [runRowChecks, hf]
  · rw [runRows_eq_firstRunError]
    cases hfe : firstRunError checks 1 rows header (initColState header) with
    | none => simp
    | some e => cases he : isCaught e <;> simp [he]

/-- Witness for C5: a run whose second row raises a `ValueError` in
`check_columns` returns `False` regardless of a further row. -/
theorem run_checks_stops_at_first_validation_error_witness :
    runRows [check_columns] 2 [dictReaderRow ["a", "b"] ["1", "2", "3"],
        dictReaderRow ["a", "b"] ["9", "9"]] ["a", "b"]
      (initColState ["a", "b"]) = Except.ok false :=
  (run_checks_stops_at_first_validation_error ["a", "b"] [check_columns]
    [] (List.cons_ne_nil _ _) (by decide)).2.1 2 (initColState ["a", "b"])
    (dictReaderRow ["a", "b"] ["1", "2", "3"])
    [dictReaderRow ["a", "b"] ["9", "9"]] (initColState ["a", "b"])
    (PyErr.valueError
      "row 2 has a different number of values. Row length: 3, Number of columns: 2")
    (by decide) (by decide)

/-- C10: the runner converts exactly the caught (`TypeError`/`ValueError`)
exceptions into an overall `False`; any other exception raised by a check
propagates to the caller unchanged. -/
theorem runner_catches_only_type_and_value_errors
    (checks : List CheckFn) (rows : List CsvRow) (idx : Nat)
    (header : List String) (st : ColState) :
    (∀ e, firstRunError checks idx rows header st = some e →
      isCaught e = false →
      runRows checks idx rows header st = Except.error e) ∧
    (runRows checks idx rows header st = Except.ok false ↔
      ∃ e, firstRunError checks idx rows header st = some e ∧
        isCaught e = true) := by
  constructor
  · intro e hfe hc
    rw [runRows_eq_firstRunError, hfe]
    simp [hc]
  · rw [runRows_eq_firstRunError]
    cases hfe : firstRunError checks idx rows header st with
    | none => simp
    | some e => cases he : isCaught e <;> simp [he]

/-- Witness for C10: `check_no_nulls` hits the `None` a short row was
padded with, raising an uncaught `AttributeError` that propagates out of
the runner instead of yielding `False`. -/
theorem runner_catches_only_type_and_value_errors_witness :
    runRows [check_no_nulls none] 1 [dictReaderRow ["a", "b"] ["1"]]
        ["a", "b"] (initColState ["a", "b"]) =
      Except.error (PyErr.otherError
        "AttributeError: NoneType object has no attribute strip") :=
  (runner_catches_only_type_and_value_errors [check_no_nulls none]
    [dictReaderRow ["a", "b"] ["1"]] 1 ["a", "b"]
    (initColState ["a", "b"])).1
    (PyErr.otherError
      "AttributeError: NoneType object has no attribute strip")
    (by decide) (by decide)

/-- C7 counterexample: with a columns-to-test list naming an existing
column before an unknown one, `check_unique` (i) fails with the
data-dependent duplicate error — not the configuration error — when the
existing column holds a duplicate, and (ii) mutates the accumulator of
the existing column before raising the unknown-column error. -/
theorem unknown_column_after_data_logic_cex :
    ("x" ∉ (["a"] : List String)) ∧
    check_unique (some ["a", "x"]) 2 (dictReaderRow ["a"] ["1"]) ["a"]
        [("a", [some "1"])] =
      ([("a", [some "1"])], some (PyErr.valueError
        "Duplicate value 1 found at row 2 in column a.")) ∧
    check_unique (some ["a", "x"]) 1 (dictReaderRow ["a"] ["1"]) ["a"]
        [("a", [])] =
      ([("a", [some "1"])], some (PyErr.valueError
        "Column x not found in the header.")) := by decide

/-- If the leading columns all pass, appending an unknown column makes
`check_unique` fail with the configuration error, with the leading
columns' accumulator mutations retained. -/
theorem checkUniqueCols_append_unknown (pre : List String) (c : String)
    (post : List String) (idx : Nat) (row : CsvRow)
    (header : List String) (st st2 : ColState) (hc : c ∉ header)
    (h : checkUniqueCols pre idx row header st = (st2, none)) :
    checkUniqueCols (pre ++ c :: post) idx row header st =
      (st2, some (PyErr.valueError
        ("Column " ++ c ++ " not found in the header."))) := by
  induction pre generalizing st with
  | nil =>
    rw [checkUniqueCols] at h
    injection h with h1 h2
    subst h1
    rw [List.nil_append, checkUniqueCols, if_pos hc]
  | cons p rest ih =>
    rw [checkUniqueCols] at h
    rw [List.cons_append, checkUniqueCols]
    by_cases hp : p ∉ header
    · rw [if_pos hp] at h
      injection h with h1 h2
      exact absurd h2 (by simp)
    · rw [if_neg hp] at h
      rw [if_neg hp]
      by_cases hdup : rowGet row p ∈ sumsGet st p
      · rw [if_pos hdup] at h
        injection h with h1 h2
        exact absurd h2 (by simp)
      · rw [if_neg hdup] at h
        rw [if_neg hdup]
        exact ih (sumsAdd st p (rowGet row p)) h

/-- If the leading columns all pass, appending an unknown column makes
`check_numeric_range` fail with the configuration error. -/
theorem checkNumericRangeCols_append_unknown (minV maxV : Int)
    (pre : List String) (c : String) (post : List String) (idx : Nat)
    (row : CsvRow) (header : List String) (st st2 : ColState)
    (hc : c ∉ header)
    (h : checkNumericRangeCols minV maxV pre idx row header st =
      (st2, none)) :
    checkNumericRangeCols minV maxV (pre ++ c :: post) idx row header st =
      (st2, some (PyErr.valueError
        ("Column " ++ c ++ " not found in the header."))) := by
  induction pre generalizing st with
  | nil =>
    rw [checkNumericRangeCols] at h
    injection h with h1 h2
    subst h1
    rw [List.nil_append, checkNumericRangeCols, if_pos hc]
  | cons p rest ih =>
    rw [checkNumericRangeCols] at h
    rw [List.cons_append, checkNumericRangeCols]
    by_cases hp : p ∉ header
    · rw [if_pos hp] at h
      injection h with h1 h2
      exact absurd h2 (by simp)
    · rw [if_neg hp] at h
      rw [if_neg hp]
      cases hv : rowGet row p with
      | none =>
        simp only [hv] at h ⊢
        exact ih st h
      | some v =>
        simp only [hv] at h ⊢
        by_cases hve : v = ""
        · simp only [if_pos hve] at h ⊢
          exact ih st h
        · simp only [if_neg hve] at h ⊢
          cases hn : parsePyInt v with
          | none =>
            simp only [hn] at h
            injection h with h1 h2
            exact absurd h2 (by simp)
          | some n =>
            simp only [hn] at h ⊢
            by_cases hr : n < minV ∨ n > maxV
            · simp only [if_pos hr] at h
              injection h with h1 h2
              exact absurd h2 (by simp)
            · simp only [if_neg hr] at h ⊢
              exact ih st h

/-- C7 (amended): the built-in checks validate column names one at a time
in list order, immediately before that column's data-dependent logic; when
every column listed before an unknown name passes, the check fails with
the unknown-column configuration error, retaining the accumulator
mutations of the earlier columns (if the unknown name is listed first,
`pre = []`, the error is raised with the state untouched). -/
theorem unknown_column_checked_per_column_in_order
    (pre : List String) (c : String) (post : List String) (idx : Nat)
    (row : CsvRow) (header : List String) (st st2 : ColState)
    (hc : c ∉ header) :
    (checkUniqueCols pre idx row header st = (st2, none) →
      checkUniqueCols (pre ++ c :: post) idx row header st =
        (st2, some (PyErr.valueError
          ("Column " ++ c ++ " not found in the header.")))) ∧
    (∀ minV maxV,
      checkNumericRangeCols minV maxV pre idx row header st = (st2, none) →
      checkNumericRangeCols minV maxV (pre ++ c :: post) idx row header
          st =
        (st2, some (PyErr.valueError
          ("Column " ++ c ++ " not found in the header.")))) :=
  ⟨fun h =>
    checkUniqueCols_append_unknown pre c post idx row header st st2 hc h,
   fun minV maxV h =>
    checkNumericRangeCols_append_unknown minV maxV pre c post idx row
      header st st2 hc h⟩

/-- Witness for C7 (amended): column `a` passes and its value is recorded;
the unknown column `x` listed after it then fails with the configuration
error. -/
theorem unknown_column_checked_per_column_in_order_witness :
    checkUniqueCols ["a"] 1 (dictReaderRow ["a"] ["1"]) ["a"]
        [("a", [])] = ([("a", [some "1"])], none) ∧
    checkUniqueCols ["a", "x"] 1 (dictReaderRow ["a"] ["1"]) ["a"]
        [("a", [])] =
      ([("a", [some "1"])], some (PyErr.valueError
        "Column x not found in the header.")) := by
  have h : checkUniqueCols ["a"] 1 (dictReaderRow ["a"] ["1"]) ["a"]
      [("a", [])] = ([("a", [some "1"])], none) := by decide
  exact ⟨h, (unknown_column_checked_per_column_in_order ["a"] "x" [] 1
    (dictReaderRow ["a"] ["1"]) ["a"] [("a", [])] [("a", [some "1"])]
    (by decide)).1 h⟩
